import Mathlib

/-!
Shallow embedding of the MouldLensAI extraction-and-classification pipeline
(src/app.py, src/services.py, src/utils.py, src/schema.py).

External boundaries (OpenCV, the Groq vision model, MongoDB) are modelled as
explicit inputs: the OpenCV behaviour on the uploaded bytes is a `CvResult`,
the model call is an `Except String String` (error or raw response text), and
the store is passed in and returned explicitly.
-/

namespace MouldLens

/-- schema.py `DragValue`: required `main`, optional `sub`. -/
structure DragValue where
  main : String
  sub : Option String
deriving DecidableEq, Repr

/-- schema.py `MouldReading`: optional `cope`, optional `drag`. -/
structure MouldReading where
  cope : Option String
  drag : Option DragValue
deriving DecidableEq, Repr

/-- schema.py `LLMExtraction`: three optional string fields. -/
structure LLMExtraction where
  cope : Option String
  drag_main : Option String
  drag_sub : Option String
deriving DecidableEq, Repr

/-- Decidable equality for `Except`, so concrete runs of fallible code can be
checked by `decide`. -/
instance {ε α : Type} [DecidableEq ε] [DecidableEq α] : DecidableEq (Except ε α) := fun x y =>
  match x, y with
  | Except.ok a, Except.ok b =>
    if h : a = b then isTrue (by rw [h]) else isFalse (fun hc => by cases hc; exact h rfl)
  | Except.error a, Except.error b =>
    if h : a = b then isTrue (by rw [h]) else isFalse (fun hc => by cases hc; exact h rfl)
  | Except.ok _, Except.error _ => isFalse (fun hc => by cases hc)
  | Except.error _, Except.ok _ => isFalse (fun hc => by cases hc)

/-! ## Shape Gate (utils.py `contains_potential_digits`) -/

/-- Result of decoding the uploaded bytes with OpenCV: image dimensions and
the bounding rectangles `(x, y, w, h)` of the external contours that
`cv2.findContours` yields after adaptive thresholding. -/
structure CvImage where
  rows : Nat
  cols : Nat
  contours : List (Nat × Nat × Nat × Nat)
deriving DecidableEq, Repr

/-- Behaviour of the OpenCV layer on a given byte string: an unexpected
exception anywhere inside the `try` block, a decode returning `None`, or a
decoded image with its contour data. -/
inductive CvResult where
  | fault (msg : String)
  | decodeFail
  | decoded (img : CvImage)
deriving DecidableEq, Repr

/-- The contour loop of utils.py lines 67-86: count a contour when
`50 < area < img_area * 0.1` and `0.1 < w/h < 10.0` (`h = 0` giving ratio 0),
returning `true` as soon as 3 candidates accumulate, `false` after the loop.
The float thresholds `0.1` and `10.0` are modelled exactly as the rationals
1/10 and 10. -/
def shapeLoop (imgArea : Nat) : List (Nat × Nat × Nat × Nat) → Nat → Bool
  | [], _ => false
  | (_, _, w, h) :: rest, valid =>
    let area := w * h
    if 50 < area ∧ area * 10 < imgArea then
      let valid2 := if 0 < h ∧ h < w * 10 ∧ w < h * 10 then valid + 1 else valid
      if 3 ≤ valid2 then true else shapeLoop imgArea rest valid2
    else shapeLoop imgArea rest valid

/-- The body of the `try` block in utils.py lines 48-86: a decode failure
returns `False`, otherwise the contour loop decides; any internal fault is an
exception escaping the body. -/
def gateBody : CvResult → Except String Bool
  | CvResult.fault m => Except.error m
  | CvResult.decodeFail => Except.ok false
  | CvResult.decoded img => Except.ok (shapeLoop (img.rows * img.cols) img.contours 0)

/-- utils.py `contains_potential_digits`: the `try/except` wrapper maps any
exception from the body to `True` (fail-open); the function itself is total
and never raises. -/
def contains_potential_digits (cv : CvResult) : Bool :=
  match gateBody cv with
  | Except.error _ => true
  | Except.ok b => b

/-! ## Python string primitives used by services.py -/

/-- Characters stripped by Python `str.strip()` (ASCII whitespace). -/
def isPySpace (c : Char) : Bool :=
  c == ' ' || c == '\t' || c == '\n' || c == '\x0d' || c == '\x0b' || c == '\x0c'

/-- `str.strip()` on a character list. -/
def stripChars (s : List Char) : List Char :=
  ((s.dropWhile isPySpace).reverse.dropWhile isPySpace).reverse

/-- Python `str.strip()`. -/
def pyStrip (s : String) : String := String.mk (stripChars s.data)

/-- Python `str.replace(pat, rep)`: replace every non-overlapping occurrence,
scanning left to right (the scan continues after each match). Each step
consumes at least one character, so `fuel` is bounded by the input length. -/
def replaceAux (fuel : Nat) (pat rep : List Char) (s : List Char) : List Char :=
  match fuel, s with
  | 0, s => s
  | _ + 1, [] => []
  | fuel + 1, c :: rest =>
    if pat ≠ [] ∧ pat.isPrefixOf (c :: rest) = true then
      rep ++ replaceAux fuel pat rep (rest.drop (pat.length - 1))
    else
      c :: replaceAux fuel pat rep rest

/-- Python `str.replace`. -/
def pyReplace (s pat rep : String) : String :=
  String.mk (replaceAux (s.data.length + 1) pat.data rep.data s.data)

/-- Python substring membership (`pat in s`) on character lists. -/
def containsSub (s pat : List Char) : Bool :=
  match s with
  | [] => pat.isEmpty
  | c :: rest => pat.isPrefixOf (c :: rest) || containsSub rest pat

/-- Python substring membership (`pat in s`). -/
def pyContains (s pat : String) : Bool := containsSub s.data pat.data

/-! ## JSON parsing (the `json.loads` call of services.py line 56)

The model is instructed to return a single flat JSON object whose values are
strings or `null` (prompts.py OUTPUT FORMAT), so `json.loads` is embedded for
that flat fragment: an object of string keys mapping to string literals
(without escape sequences) or `null`. Anything outside the fragment parses to
`none`, which the service treats as a JSON decode failure. -/

/-- JSON insignificant whitespace. -/
def jsonSkipWs (s : List Char) : List Char :=
  s.dropWhile (fun c => c == ' ' || c == '\t' || c == '\n' || c == '\x0d')

/-- Parse the remainder of a string literal (opening quote consumed),
accumulating characters until the closing quote; escape sequences are outside
the fragment. -/
def parseStrAux (s acc : List Char) : Option (String × List Char) :=
  match s with
  | [] => none
  | c :: r =>
    if c == '"' then some (String.mk acc.reverse, r)
    else if c == '\\' then none
    else parseStrAux r (c :: acc)

/-- Parse a JSON value of the fragment: a string literal or `null`. -/
def parseJsonValue (s : List Char) : Option (Option String × List Char) :=
  match jsonSkipWs s with
  | '"' :: r =>
    match parseStrAux r [] with
    | some (v, rest) => some (some v, rest)
    | none => none
  | 'n' :: 'u' :: 'l' :: 'l' :: r => some (none, r)
  | _ => none

/-- Parse the members of a non-empty object, up to and including the closing
brace; `fuel` bounds the recursion by the input length. -/
def parseMembers (fuel : Nat) (s : List Char) :
    Option (List (String × Option String) × List Char) :=
  match fuel with
  | 0 => none
  | fuel + 1 =>
    match jsonSkipWs s with
    | '"' :: r =>
      match parseStrAux r [] with
      | none => none
      | some (k, r1) =>
        match jsonSkipWs r1 with
        | ':' :: r2 =>
          match parseJsonValue r2 with
          | none => none
          | some (v, r3) =>
            match jsonSkipWs r3 with
            | ',' :: r4 =>
              match parseMembers fuel r4 with
              | some (kvs, rest) => some ((k, v) :: kvs, rest)
              | none => none
            | '\x7d' :: r4 => some ([(k, v)], r4)
            | _ => none
        | _ => none
    | _ => none

/-- `json.loads` on the flat fragment: a whole input that is one object. -/
def parseFlatJson (s : String) : Option (List (String × Option String)) :=
  match jsonSkipWs s.data with
  | '\x7b' :: r =>
    match jsonSkipWs r with
    | '\x7d' :: r2 => if jsonSkipWs r2 = [] then some [] else none
    | _ =>
      match parseMembers (r.length + 1) r with
      | some (kvs, rest) => if jsonSkipWs rest = [] then some kvs else none
      | none => none
  | _ => none

/-- Value of a key in a parsed object, later duplicates winning as in a
Python dict built by `json.loads`; a missing key or a `null` value both give
the pydantic default `None`. -/
def lookupLast (kvs : List (String × Option String)) (k : String) : Option String :=
  match kvs.reverse.lookup k with
  | some v => v
  | none => none

/-- `LLMExtraction(**parsed_json)`: bind the three optional fields. -/
def toLLMExtraction (kvs : List (String × Option String)) : LLMExtraction :=
  ⟨lookupLast kvs ("cope"), lookupLast kvs ("drag_main"), lookupLast kvs ("drag_sub")⟩

/-! ## Extraction Client (services.py `extract_mould_values`) -/

/-- services.py lines 49-54: strip the response, then if it contains
"```json" delete every occurrence of "```json" and of "```" and strip again;
otherwise if it contains "```" delete every occurrence of "```" and strip. -/
def cleanContent (raw : String) : String :=
  let content := pyStrip raw
  if pyContains content ("```json") = true then
    pyStrip (pyReplace (pyReplace content ("```json") ("")) ("```") (""))
  else if pyContains content ("```") = true then
    pyStrip (pyReplace content ("```") (""))
  else content

/-- services.py lines 63-65: Python truthiness — `drag` is constructed only
when `drag_main` is a non-`None`, non-empty string; `drag_sub` is passed
through unexamined. -/
def deriveDrag (r : LLMExtraction) : Option DragValue :=
  match r.drag_main with
  | none => none
  | some s => if s = "" then none else some ⟨s, r.drag_sub⟩

/-- services.py lines 67-70: the final `MouldReading`. -/
def readingFromExtraction (r : LLMExtraction) : MouldReading :=
  ⟨r.cope, deriveDrag r⟩

/-- The user-turn instruction text of app.py line 34 (sent by services.py as
the human message alongside the image). -/
def userInstructionText : String :=
  "Analyze the mould image and extract the numerical values for cope and drag according to the system rules. Output your final answer STRICTLY as a single JSON object. Do NOT wrap it in markdown block quotes (```json). Your response must start with \x7b and end with \x7d."

/-- services.py `extract_mould_values`. The remote call is an input: either
the raw response text or a failure (network/model error, `Except.error`).
Missing credential raises `ValueError("GROQ_API_KEY is not configured in
.env")` before any call; an unparsable response raises `ValueError("LLM
returned invalid JSON: ...")` (the Python message interpolates the
`json.JSONDecodeError` detail, abstracted here); every failure propagates to
the caller (`raise e`). -/
def extract_mould_values (groq_api_key : String) (llmResponse : Except String String) :
    Except String MouldReading :=
  if groq_api_key = "" then
    Except.error ("GROQ_API_KEY is not configured in .env")
  else
    match llmResponse with
    | Except.error e => Except.error e
    | Except.ok raw =>
      match parseFlatJson (cleanContent raw) with
      | none => Except.error ("LLM returned invalid JSON: invalid model output")
      | some kvs => Except.ok (readingFromExtraction (toLLMExtraction kvs))

/-! ## Upload pipeline (app.py `upload_image`, lines 50-172)

The record below carries the keyword arguments app.py passes at each
`MouldReadingResponse(...)` construction site, plus the `id` it assigns after
persisting. Timestamps and elapsed milliseconds are opaque inputs. -/

/-- The outcome record as app.py constructs it: `status`, `message`, the
payload, `timestamp`, `processing_time_ms`, `camera_id`, and `id` (set only
after a persist attempt, from what `save_mould_reading` returned). -/
structure ReadingRecord where
  status : String
  message : String
  cope : Option String
  drag : Option DragValue
  timestamp : Nat
  processing_time_ms : Nat
  camera_id : String
  id : Option String := none
deriving DecidableEq, Repr

/-- The record of the gate-reject and the LLM-null branches
(app.py lines 60-68 and 94-102). -/
def emptyRecord (camera_id : String) (now elapsed : Nat) : ReadingRecord :=
  { status := "empty", message := "Nothing detected, mould missing",
    cope := none, drag := none, timestamp := now,
    processing_time_ms := elapsed, camera_id := camera_id }

/-- The success record (app.py lines 117-125). -/
def successRecord (result : MouldReading) (camera_id : String) (now elapsed : Nat) :
    ReadingRecord :=
  { status := "success", message := "Mould detected successfully",
    cope := result.cope, drag := result.drag, timestamp := now,
    processing_time_ms := elapsed, camera_id := camera_id }

/-- The error record (app.py lines 148-156): the message embeds `str(e)`. -/
def errorRecord (e : String) (camera_id : String) (now elapsed : Nat) : ReadingRecord :=
  { status := "error", message := "Extraction failed: " ++ e,
    cope := none, drag := none, timestamp := now,
    processing_time_ms := elapsed, camera_id := camera_id }

/-- `if db.db is not None: ... response_data.id = inserted_id`: the response
as returned after the persist attempt; `saveResult` is whatever
`save_mould_reading` returned (`None` when the insert failed). On the model
schema.py declares, assigning the undeclared field `id` would itself raise —
this and the construction itself are reachable only under the intended
schema; the shipped behaviour is `upload_request` below. -/
def respOf (dbConnected : Bool) (saveResult : Option String) (rcd : ReadingRecord) :
    ReadingRecord :=
  if dbConnected then { rcd with id := saveResult } else rcd

/-- The documents handed to `save_mould_reading` (the `model_dump()` happens
before `id` is assigned, so the persisted document carries no identifier). -/
def insOf (dbConnected : Bool) (rcd : ReadingRecord) : List ReadingRecord :=
  if dbConnected then [rcd] else []

/-- What one request produces: the response returned to the caller, the
documents inserted into `mould_readings`, and whether the Extraction Client
(`extract_mould_values`) was invoked. -/
structure UploadResult where
  response : ReadingRecord
  inserted : List ReadingRecord
  llmCalled : Bool
deriving DecidableEq, Repr

/-- app.py `upload_image` lines 50-172, with each `MouldReadingResponse(...)`
call modelled by the record its keyword arguments specify — the handler's
intent. The OpenCV behaviour on the uploaded bytes is `cv`, the remote model
call is `llmResponse`; exceptions raised by extraction are the `Except.error`
branch of `extract_mould_values`, caught at lines 143-170 and converted to an
error record. The pydantic validation that the shipped schema.py declaration
makes fail at every construction site is modelled separately by
`upload_request`; this definition describes the handler under the intended
(repaired) response model, so it over-approximates the shipped program's set
of produced records. -/
def upload_image (dbConnected : Bool) (saveResult : Option String)
    (camera_id : String) (cv : CvResult) (groq_api_key : String)
    (llmResponse : Except String String) (elapsed now : Nat) : UploadResult :=
  if contains_potential_digits cv = false then
    let rcd := emptyRecord camera_id now elapsed
    { response := respOf dbConnected saveResult rcd,
      inserted := insOf dbConnected rcd, llmCalled := false }
  else
    match extract_mould_values groq_api_key llmResponse with
    | Except.ok result =>
      if result.cope = none ∧ result.drag = none then
        let rcd := emptyRecord camera_id now elapsed
        { response := respOf dbConnected saveResult rcd,
          inserted := insOf dbConnected rcd, llmCalled := true }
      else
        let rcd := successRecord result camera_id now elapsed
        { response := respOf dbConnected saveResult rcd,
          inserted := insOf dbConnected rcd, llmCalled := true }
    | Except.error e =>
      let rcd := errorRecord e camera_id now elapsed
      { response := respOf dbConnected saveResult rcd,
        inserted := insOf dbConnected rcd, llmCalled := true }

/-! ## Correction endpoint (app.py `update_mould_reading`, lines 214-245) -/

/-- A persisted document as the correction path sees it: the payload fields,
the provenance flag (absent until a correction sets it), and a stand-in for
the remaining untouched fields (`status` here). -/
structure StoredRecord where
  status : String
  cope : Option String
  drag : Option DragValue
  is_human_corrected : Option Bool
deriving DecidableEq, Repr

/-- The `$set` document built at lines 225-234: field-level assignments. -/
structure UpdateSet where
  cope : Option String
  drag : Option DragValue
  is_human_corrected : Option Bool
deriving DecidableEq, Repr

/-- MongoDB `$set`: assign exactly the present fields, leave the rest. -/
def applyUpdateSet (u : UpdateSet) (rcd : StoredRecord) : StoredRecord :=
  { status := rcd.status,
    cope := match u.cope with | some v => some v | none => rcd.cope,
    drag := match u.drag with | some v => some v | none => rcd.drag,
    is_human_corrected :=
      match u.is_human_corrected with | some b => some b | none => rcd.is_human_corrected }

/-- What the endpoint hands back to the web layer: a 200 body or an
`HTTPException` status code with its detail string. -/
inductive UpdateOutcome where
  | ok (message : String)
  | httpError (statusCode : Nat) (detail : String)
deriving DecidableEq, Repr

/-- `bson.ObjectId(reading_id)` accepts a 24-character hex string. -/
def isValidObjectId (s : String) : Bool :=
  s.length == 24 && s.data.all (fun c => c.isDigit || ('a' ≤ c && c ≤ 'f') || ('A' ≤ c && c ≤ 'F'))

/-- `str(bson.errors.InvalidId)` for a malformed identifier. -/
def invalidIdMsg (s : String) : String :=
  "'" ++ s ++ "' is not a valid ObjectId, it must be a 12-byte input or a 24-character hex string"

/-- `str(...)` of the `HTTPException(404)` raised at line 243: being raised
inside the `try`, it is caught by `except Exception` at line 244 and re-wrapped
as a 400 whose detail is this string. -/
def notFoundDetail : String := "404: Record not found or no changes made"

/-- app.py `update_mould_reading`. `stored` is the document the collection
holds under the given identifier (`none` when the filter matches nothing);
the second component of the result is that slot after the request. MongoDB
reports `modified_count = 0` when the `$set` changes nothing, which the code
turns into the same path as a missing record. -/
def update_mould_reading (dbConnected : Bool) (reading_id : String)
    (reading : MouldReading) (stored : Option StoredRecord) :
    UpdateOutcome × Option StoredRecord :=
  if dbConnected = false then
    (UpdateOutcome.httpError 503 ("Database connection unavailable"), stored)
  else if isValidObjectId reading_id = false then
    (UpdateOutcome.httpError 400 (invalidIdMsg reading_id), stored)
  else if reading.cope = none ∧ reading.drag = none then
    (UpdateOutcome.ok ("No changes requested"), stored)
  else
    let u : UpdateSet := ⟨reading.cope, reading.drag, some true⟩
    match stored with
    | none => (UpdateOutcome.httpError 400 notFoundDetail, none)
    | some rcd =>
      let rcd2 := applyUpdateSet u rcd
      if rcd2 = rcd then (UpdateOutcome.httpError 400 notFoundDetail, some rcd)
      else (UpdateOutcome.ok ("Record updated successfully"), some rcd2)

/-! ## Declared response-model shape (schema.py lines 17-21)

schema.py's `MouldReadingResponse` extends `MouldReading` with
`mould_detected` (default `True`), `scan_time_ms` (required) and `timestamp`
(required) — a legacy record shape; app.py's construction sites pass a
different keyword set. -/

/-- The field names `MouldReadingResponse` declares in schema.py. -/
def mouldReadingResponseFields : List String :=
  ["cope", "drag", "mould_detected", "scan_time_ms", "timestamp"]

/-- The declared fields that have no default value in schema.py. -/
def mouldReadingResponseRequiredFields : List String :=
  ["scan_time_ms", "timestamp"]

/-- The keyword arguments app.py passes at every
`MouldReadingResponse(...)` construction site (lines 60-67, 94-101, 117-124,
148-155); `id` is assigned afterwards when a persist happens. -/
def appResponseConstructionKwargs : List String :=
  ["status", "message", "cope", "drag", "timestamp", "processing_time_ms", "camera_id"]

/-- The per-upload response payload fields the spec states. -/
def specClaimedResponseFields : List String :=
  ["status", "message", "cope", "drag", "timestamp", "processing_time_ms", "camera_id", "id"]

/-! ## Strict upload model: the pydantic validation made explicit

`upload_image` models each `MouldReadingResponse(...)` call by the record its
keyword arguments specify — the handler's evident intent. Under the model
schema.py actually declares, pydantic v2 rejects every one of those calls:
`scan_time_ms` is required and never passed. The definitions below follow
app.py's control flow with that validation explicit: on any path the first
construction raises `ValidationError` before anything is persisted, control
jumps to the `except` at line 143, the construction at line 148 raises the
same error inside the `except` block, and the exception escapes the handler
as a raw HTTP 500. -/

/-- Whether a `MouldReadingResponse(...)` call in app.py raises
`ValidationError` under pydantic v2: it does iff some field the declared
model requires is missing from the passed keyword arguments (extra keywords
are ignored, so they cannot help). -/
def responseConstructionRaises : Bool :=
  !(mouldReadingResponseRequiredFields.all
    (fun f => appResponseConstructionKwargs.contains f))

/-- A request's result at the HTTP boundary: a structured 200 envelope, or an
exception that escaped the handler (the framework's generic 500). -/
inductive HttpOutcome where
  | envelope (r : ReadingRecord)
  | serverFault
deriving DecidableEq, Repr

/-- One request under the strict model: its HTTP-level outcome, the documents
actually inserted, and whether the Extraction Client was invoked. -/
structure StrictUploadResult where
  outcome : HttpOutcome
  inserted : List ReadingRecord
  llmCalled : Bool
deriving DecidableEq, Repr

/-- app.py `upload_image` with the pydantic validation of every
`MouldReadingResponse(...)` call made explicit. When construction raises —
which it does under the shipped schema.py, see `response_schema_mismatch` —
every path reaches a construction before persisting or returning (lines 60,
94, 117, 148), so the request ends in a raw server fault with nothing
persisted; extraction still runs exactly when the gate passes, since the
call at line 86 precedes the first construction of that path. Were the
declared model to accept the keywords, the handler would behave as
`upload_image`. -/
def upload_request (dbConnected : Bool) (saveResult : Option String)
    (camera_id : String) (cv : CvResult) (groq_api_key : String)
    (llmResponse : Except String String) (elapsed now : Nat) : StrictUploadResult :=
  if responseConstructionRaises then
    { outcome := HttpOutcome.serverFault, inserted := [],
      llmCalled := contains_potential_digits cv }
  else
    let u := upload_image dbConnected saveResult camera_id cv groq_api_key
      llmResponse elapsed now
    { outcome := HttpOutcome.envelope u.response, inserted := u.inserted,
      llmCalled := u.llmCalled }

/-- A decoded image the Shape Gate accepts: three digit-sized square contours
inside a 100x100 frame (each of area 100, aspect ratio 1). -/
def sampleDigitImage : CvImage :=
  ⟨100, 100, [(0, 0, 10, 10), (20, 0, 10, 10), (40, 0, 10, 10)]⟩

/-! ## Spec-side comparison definition and concrete model responses -/

/-- The drag-derivation as the claim words it: whenever `drag_main` is
present (a non-`None` value), construct `DragValue(main=drag_main,
sub=drag_sub)`; only an absent `drag_main` discards the drag. Compared
against `deriveDrag`, which is translated from services.py. -/
def specDeriveDrag (r : LLMExtraction) : Option DragValue :=
  match r.drag_main with
  | none => none
  | some s => some ⟨s, r.drag_sub⟩

/-- A model response wrapped in the code fences the prompt forbids. -/
def fencedModelResponse : String :=
  "```json\n\x7b\"cope\": \"81373\", \"drag_main\": null, \"drag_sub\": null\x7d\n```"

/-- The same response without fences. -/
def plainModelResponse : String :=
  "\x7b\"cope\": \"81373\", \"drag_main\": null, \"drag_sub\": null\x7d"

/-- A fence-free response whose `cope` string value itself contains the
three-backtick sequence. -/
def backtickModelResponse : String :=
  "\x7b\"cope\": \"12```3\", \"drag_main\": null, \"drag_sub\": null\x7d"

/-! ## Helper lemmas -/

@[simp]
theorem respOf_status (db : Bool) (s : Option String) (r : ReadingRecord) :
    (respOf db s r).status = r.status := by
  cases db <;> simp [respOf]

@[simp]
theorem respOf_message (db : Bool) (s : Option String) (r : ReadingRecord) :
    (respOf db s r).message = r.message := by
  cases db <;> simp [respOf]

@[simp]
theorem respOf_cope (db : Bool) (s : Option String) (r : ReadingRecord) :
    (respOf db s r).cope = r.cope := by
  cases db <;> simp [respOf]

@[simp]
theorem respOf_drag (db : Bool) (s : Option String) (r : ReadingRecord) :
    (respOf db s r).drag = r.drag := by
  cases db <;> simp [respOf]

/-- Case analysis on one upload request: the response and the inserted
documents come from one of the four records app.py builds, the Extraction
Client runs exactly when the gate passes, and each record shape carries the
branch condition that produced it. -/
theorem upload_image_cases (db : Bool) (save : Option String) (cam : String)
    (cv : CvResult) (key : String) (llm : Except String String) (elapsed now : Nat) :
    ∃ rcd : ReadingRecord,
      (upload_image db save cam cv key llm elapsed now).response = respOf db save rcd
      ∧ (upload_image db save cam cv key llm elapsed now).inserted = insOf db rcd
      ∧ (upload_image db save cam cv key llm elapsed now).llmCalled
          = contains_potential_digits cv
      ∧ ((contains_potential_digits cv = false ∧ rcd = emptyRecord cam now elapsed)
         ∨ (contains_potential_digits cv = true
            ∧ ∃ result, extract_mould_values key llm = Except.ok result
                ∧ result.cope = none ∧ result.drag = none
                ∧ rcd = emptyRecord cam now elapsed)
         ∨ (contains_potential_digits cv = true
            ∧ ∃ result, extract_mould_values key llm = Except.ok result
                ∧ ¬(result.cope = none ∧ result.drag = none)
                ∧ rcd = successRecord result cam now elapsed)
         ∨ (contains_potential_digits cv = true
            ∧ ∃ e, extract_mould_values key llm = Except.error e
                ∧ rcd = errorRecord e cam now elapsed)) := by
  unfold upload_image
  cases hg : contains_potential_digits cv
  · exact ⟨emptyRecord cam now elapsed, by simp, by simp, by simp, Or.inl ⟨rfl, rfl⟩⟩
  · cases hx : extract_mould_values key llm with
    | ok result =>
      by_cases hc : result.cope = none ∧ result.drag = none
      · refine ⟨emptyRecord cam now elapsed, by simp [hc], by simp [hc], by simp [hc],
          Or.inr (Or.inl ⟨rfl, result, rfl, hc.1, hc.2, rfl⟩)⟩
      · refine ⟨successRecord result cam now elapsed, by simp [hc], by simp [hc], by simp [hc],
          Or.inr (Or.inr (Or.inl ⟨rfl, result, rfl, hc, rfl⟩))⟩
    | error e =>
      exact ⟨errorRecord e cam now elapsed, by simp, by simp, by simp,
        Or.inr (Or.inr (Or.inr ⟨rfl, e, rfl, rfl⟩))⟩

/-! ## Claim theorems -/

/-- C7: the Shape Gate is a total boolean function of the OpenCV behaviour —
it never raises; a decode failure yields `false`, any unexpected internal
fault yields `true` (fail-open), and a decoded image is decided by the
contour loop. -/
theorem shape_gate_total_fail_modes :
    ∀ (m : String) (img : CvImage),
      contains_potential_digits (CvResult.fault m) = true
      ∧ contains_potential_digits CvResult.decodeFail = false
      ∧ contains_potential_digits (CvResult.decoded img)
          = shapeLoop (img.rows * img.cols) img.contours 0 := by
  intro m img
  exact ⟨rfl, rfl, rfl⟩

/-- C3: the response model schema.py declares is a legacy shape. None of the
claimed fields `status`, `message`, `processing_time_ms`, `camera_id`, `id`
is declared by `MouldReadingResponse`, its required field `scan_time_ms` is
not among the keyword arguments app.py passes, and every keyword app.py does
pass is one of the fields the spec claims — so app.py and the spec agree on
the intended payload while schema.py contradicts both. -/
theorem response_schema_mismatch :
    mouldReadingResponseFields.contains ("status") = false
    ∧ mouldReadingResponseFields.contains ("message") = false
    ∧ mouldReadingResponseFields.contains ("processing_time_ms") = false
    ∧ mouldReadingResponseFields.contains ("camera_id") = false
    ∧ mouldReadingResponseFields.contains ("id") = false
    ∧ specClaimedResponseFields.contains ("status") = true
    ∧ mouldReadingResponseRequiredFields.contains ("scan_time_ms") = true
    ∧ appResponseConstructionKwargs.contains ("scan_time_ms") = false
    ∧ appResponseConstructionKwargs.all
        (fun k => specClaimedResponseFields.contains k) = true := by
  decide

/-- C9 (code bug): the `HTTPException(404)` of app.py line 243 is raised
inside the `try` block, so the function's own `except Exception` converts it
into a 400 whose detail string embeds the 404 text. A well-formed identifier
that matches no record, a `$set` that modifies zero rows, and a malformed
identifier therefore all surface as status 400 — the not-found failure is not
the distinct 404-style outcome the code intends at line 243. -/
theorem correction_notfound_collapsed_to_400 :
    update_mould_reading true ("0123456789abcdef01234567") ⟨some ("99999"), none⟩ none
      = (UpdateOutcome.httpError 400 notFoundDetail, none)
    ∧ update_mould_reading true ("not-a-valid-id") ⟨some ("99999"), none⟩ none
      = (UpdateOutcome.httpError 400 (invalidIdMsg ("not-a-valid-id")), none)
    ∧ update_mould_reading true ("0123456789abcdef01234567") ⟨some ("1"), none⟩
        (some ⟨"success", some ("1"), none, some true⟩)
      = (UpdateOutcome.httpError 400 notFoundDetail,
         some ⟨"success", some ("1"), none, some true⟩) := by
  decide

/-- C10: the fence-stripping of services.py lines 51-54 deletes every
occurrence of "```json" and "```" in the whole response text. A fenced
response is cleaned to its plain JSON and extracts normally; a fence-free
response whose `cope` value contains "```" parses as literal JSON to
`"12```3"`, yet the client extracts `"123"` — the backticks inside the string
value are deleted before parsing. The user instruction of app.py line 34
forbids the fenced form. -/
theorem fence_stripping_global :
    cleanContent fencedModelResponse = plainModelResponse
    ∧ extract_mould_values ("k") (Except.ok fencedModelResponse)
        = Except.ok ⟨some ("81373"), none⟩
    ∧ extract_mould_values ("k") (Except.ok plainModelResponse)
        = Except.ok ⟨some ("81373"), none⟩
    ∧ parseFlatJson backtickModelResponse
        = some [(("cope"), some ("12```3")), (("drag_main"), none), (("drag_sub"), none)]
    ∧ extract_mould_values ("k") (Except.ok backtickModelResponse)
        = Except.ok ⟨some ("123"), none⟩
    ∧ pyContains userInstructionText ("Do NOT wrap it in markdown block quotes") = true := by
  decide

/-- C6 counterexample: with `drag_main` present as the empty string (and a
bracket value present), the claim as stated constructs
`DragValue(main="", sub="644")`, but services.py's Python truthiness test
(`if raw_result.drag_main:`) discards the drag entirely. -/
theorem lone_empty_drag_main_cex :
    deriveDrag ⟨none, some (""), some ("644")⟩ = none
    ∧ (⟨none, some (""), some ("644")⟩ : LLMExtraction).drag_main = some ("")
    ∧ specDeriveDrag ⟨none, some (""), some ("644")⟩ = some ⟨"", some ("644")⟩ := by
  decide

/-- C6 (amended): the client derives drag from a non-`None`, non-empty
`drag_main` as `DragValue(main=drag_main, sub=drag_sub)`; an absent or
empty-string `drag_main` discards the drag regardless of `drag_sub`, and
`cope` passes through unchanged. -/
theorem drag_requires_nonempty_main (r : LLMExtraction) :
    ((r.drag_main = none ∨ r.drag_main = some ("")) →
      (readingFromExtraction r).drag = none)
    ∧ (∀ s, r.drag_main = some s → s ≠ "" →
        (readingFromExtraction r).drag = some ⟨s, r.drag_sub⟩)
    ∧ (readingFromExtraction r).cope = r.cope := by
  rcases r with ⟨c, dm, ds⟩
  refine ⟨?_, ?_, rfl⟩
  · rintro (h | h) <;> simp_all [readingFromExtraction, deriveDrag]
  · intro s hs hne
    simp_all [readingFromExtraction, deriveDrag]

/-- Witness for C6 (amended) at the spec's own example extraction. -/
theorem drag_requires_nonempty_main_witness :
    (readingFromExtraction ⟨some ("81373"), some ("88234"), some ("644")⟩).drag
      = some ⟨"88234", some ("644")⟩ :=
  (drag_requires_nonempty_main ⟨some ("81373"), some ("88234"), some ("644")⟩).2.1
    ("88234") rfl (by decide)

/-- C4: with no model credential configured, extraction fails with
`ValueError("GROQ_API_KEY is not configured in .env")` (services.py line 16,
raised before any model call) on any upload the gate lets through, and the
request is fatal: it surfaces to the caller as a server error, never as a
normal-status outcome envelope — under the shipped schema the `except`
handler's own envelope construction raises, so the fault that reaches the
caller is the raw 500 and nothing is persisted. -/
theorem missing_credential_surfaced_server_error (db : Bool) (save : Option String)
    (cam : String) (llm : Except String String) (elapsed now : Nat) :
    contains_potential_digits (CvResult.decoded sampleDigitImage) = true
    ∧ extract_mould_values ("") llm
        = Except.error ("GROQ_API_KEY is not configured in .env")
    ∧ (upload_request db save cam (CvResult.decoded sampleDigitImage) ("")
        llm elapsed now).llmCalled = true
    ∧ (upload_request db save cam (CvResult.decoded sampleDigitImage) ("")
        llm elapsed now).outcome = HttpOutcome.serverFault
    ∧ (upload_request db save cam (CvResult.decoded sampleDigitImage) ("")
        llm elapsed now).inserted = [] := by
  have hr : responseConstructionRaises = true := by decide
  have hg : contains_potential_digits (CvResult.decoded sampleDigitImage) = true := by
    decide
  refine ⟨hg, by simp [extract_mould_values], ?_, ?_, ?_⟩ <;>
    simp [upload_request, hr, hg]

/-- C1: every record the upload pipeline produces — the response returned and
any document it persists — has `status = "success"` exactly when at least one
of `cope`/`drag` is present, and carries no payload when its status is
`"empty"` or `"error"`. -/
theorem upload_status_success_iff_payload (db : Bool) (save : Option String)
    (cam : String) (cv : CvResult) (key : String) (llm : Except String String)
    (elapsed now : Nat) (r : ReadingRecord)
    (h : r = (upload_image db save cam cv key llm elapsed now).response
       ∨ r ∈ (upload_image db save cam cv key llm elapsed now).inserted) :
    (r.status = "success" ↔ (r.cope ≠ none ∨ r.drag ≠ none))
    ∧ ((r.status = "empty" ∨ r.status = "error") → (r.cope = none ∧ r.drag = none)) := by
  obtain ⟨rcd, hresp, hins, _, hsh⟩ := upload_image_cases db save cam cv key llm elapsed now
  have hfields : r.status = rcd.status ∧ r.cope = rcd.cope ∧ r.drag = rcd.drag := by
    rcases h with h | h
    · rw [hresp] at h
      subst h
      exact ⟨respOf_status db save rcd, respOf_cope db save rcd, respOf_drag db save rcd⟩
    · rw [hins] at h
      cases db
      · simp [insOf] at h
      · simp [insOf] at h
        subst h
        exact ⟨rfl, rfl, rfl⟩
  obtain ⟨hst, hco, hdr⟩ := hfields
  rw [hst, hco, hdr]
  rcases hsh with ⟨_, he⟩ | ⟨_, _, _, _, _, he⟩ | ⟨_, result, _, hc, he⟩ | ⟨_, e, _, he⟩
  · subst he
    simp [emptyRecord]
  · subst he
    simp [emptyRecord]
  · subst he
    constructor
    · constructor
      · intro _
        simp only [successRecord]
        tauto
      · intro _
        simp [successRecord]
    · intro hf
      rcases hf with hf | hf <;> simp [successRecord] at hf
  · subst he
    simp [errorRecord]

/-- Witness for C1 at the gate-reject path's response record. -/
theorem upload_status_success_iff_payload_witness :
    (((upload_image true (some ("w1")) ("CAM_01") CvResult.decodeFail ("k")
          (Except.ok ("x")) 1 2).response.status = "success")
      ↔ ((upload_image true (some ("w1")) ("CAM_01") CvResult.decodeFail ("k")
            (Except.ok ("x")) 1 2).response.cope ≠ none
         ∨ (upload_image true (some ("w1")) ("CAM_01") CvResult.decodeFail ("k")
            (Except.ok ("x")) 1 2).response.drag ≠ none))
    ∧ (((upload_image true (some ("w1")) ("CAM_01") CvResult.decodeFail ("k")
          (Except.ok ("x")) 1 2).response.status = "empty"
        ∨ (upload_image true (some ("w1")) ("CAM_01") CvResult.decodeFail ("k")
            (Except.ok ("x")) 1 2).response.status = "error")
       → ((upload_image true (some ("w1")) ("CAM_01") CvResult.decodeFail ("k")
            (Except.ok ("x")) 1 2).response.cope = none
          ∧ (upload_image true (some ("w1")) ("CAM_01") CvResult.decodeFail ("k")
              (Except.ok ("x")) 1 2).response.drag = none)) :=
  upload_status_success_iff_payload true (some ("w1")) ("CAM_01") CvResult.decodeFail
    ("k") (Except.ok ("x")) 1 2 _ (Or.inl rfl)

/-- C2 (code bug): the try/except of app.py lines 50-172 exists precisely to
guarantee a structured three-status outcome, but under the shipped schema.py
every `MouldReadingResponse(...)` call raises `ValidationError` (required
`scan_time_ms` is never passed). On every upload request — whatever the
gate, credential, model response or store state — the first construction
raises, the error-envelope construction at line 148 raises the same error
inside the `except` block, and the exception escapes as a raw server fault
with nothing persisted: the caller never receives the structured outcome the
claim states. -/
theorem upload_raw_fault_every_request (db : Bool) (save : Option String)
    (cam : String) (cv : CvResult) (key : String) (llm : Except String String)
    (elapsed now : Nat) :
    responseConstructionRaises = true
    ∧ (upload_request db save cam cv key llm elapsed now).outcome
        = HttpOutcome.serverFault
    ∧ (upload_request db save cam cv key llm elapsed now).inserted = [] := by
  have hr : responseConstructionRaises = true := by decide
  refine ⟨hr, ?_, ?_⟩ <;> simp [upload_request, hr]

/-- C5 (code bug): the Extraction Client runs exactly when the gate passes —
so a gate-rejected upload (here, an image OpenCV cannot decode) never
invokes it, as the claim's first half states. But the pipeline does not
emit, persist and return the empty outcome: its construction at app.py
line 60 raises `ValidationError` under the shipped schema before the persist
at line 72 is reached, the except's construction at line 148 raises again,
and the request ends in a raw server fault with nothing persisted. -/
theorem gate_reject_never_extracts_but_faults (db : Bool) (save : Option String)
    (cam : String) (key : String) (llm : Except String String) (elapsed now : Nat) :
    contains_potential_digits CvResult.decodeFail = false
    ∧ (∀ cv : CvResult,
        (upload_request db save cam cv key llm elapsed now).llmCalled
          = contains_potential_digits cv)
    ∧ (upload_request db save cam CvResult.decodeFail key llm elapsed now).llmCalled
        = false
    ∧ (upload_request db save cam CvResult.decodeFail key llm elapsed now).outcome
        = HttpOutcome.serverFault
    ∧ (upload_request db save cam CvResult.decodeFail key llm elapsed now).inserted
        = [] := by
  have hr : responseConstructionRaises = true := by decide
  refine ⟨rfl, ?_, ?_, ?_, ?_⟩
  · intro cv
    simp [upload_request, hr]
  · simp [upload_request, hr]
    rfl
  · simp [upload_request, hr]
  · simp [upload_request, hr]

/-- C8: against an existing record under a well-formed identifier, a
correction applies exactly the present fields plus
`is_human_corrected = true`, leaving absent fields (and `status`) untouched,
and an empty partial short-circuits with "No changes requested" leaving the
stored record — `is_human_corrected` included — unchanged. -/
theorem correction_update_frame (reading_id : String) (rcd : StoredRecord)
    (reading : MouldReading) (hid : isValidObjectId reading_id = true) :
    update_mould_reading true reading_id ⟨none, none⟩ (some rcd)
      = (UpdateOutcome.ok ("No changes requested"), some rcd)
    ∧ (reading.cope ≠ none ∨ reading.drag ≠ none →
        (update_mould_reading true reading_id reading (some rcd)).2
          = some (applyUpdateSet ⟨reading.cope, reading.drag, some true⟩ rcd))
    ∧ (applyUpdateSet ⟨reading.cope, reading.drag, some true⟩ rcd).status = rcd.status
    ∧ (applyUpdateSet ⟨reading.cope, reading.drag, some true⟩ rcd).is_human_corrected
        = some true
    ∧ (reading.cope = none →
        (applyUpdateSet ⟨reading.cope, reading.drag, some true⟩ rcd).cope = rcd.cope)
    ∧ (reading.drag = none →
        (applyUpdateSet ⟨reading.cope, reading.drag, some true⟩ rcd).drag = rcd.drag)
    ∧ (∀ v, reading.cope = some v →
        (applyUpdateSet ⟨reading.cope, reading.drag, some true⟩ rcd).cope = some v)
    ∧ (∀ d, reading.drag = some d →
        (applyUpdateSet ⟨reading.cope, reading.drag, some true⟩ rcd).drag = some d) := by
  refine ⟨?_, ?_, ?_, ?_, ?_, ?_, ?_, ?_⟩
  · simp [update_mould_reading, hid]
  · intro hne
    have hcond : ¬(reading.cope = none ∧ reading.drag = none) := by tauto
    by_cases heq : applyUpdateSet ⟨reading.cope, reading.drag, some true⟩ rcd = rcd
    · simp [update_mould_reading, hid, hcond, heq]
    · simp [update_mould_reading, hid, hcond, heq]
  · simp [applyUpdateSet]
  · simp [applyUpdateSet]
  · intro h0
    simp [applyUpdateSet, h0]
  · intro h0
    simp [applyUpdateSet, h0]
  · intro v hv
    simp [applyUpdateSet, hv]
  · intro d hd
    simp [applyUpdateSet, hd]

/-- Witness for C8: the spec's own scenario, `{cope:"99999"}` against an
existing success record. -/
theorem correction_update_frame_witness :
    update_mould_reading true ("0123456789abcdef01234567") ⟨none, none⟩
        (some ⟨"success", some ("1"), some ⟨"88234", some ("644")⟩, none⟩)
      = (UpdateOutcome.ok ("No changes requested"),
         some ⟨"success", some ("1"), some ⟨"88234", some ("644")⟩, none⟩)
    ∧ (update_mould_reading true ("0123456789abcdef01234567") ⟨some ("99999"), none⟩
        (some ⟨"success", some ("1"), some ⟨"88234", some ("644")⟩, none⟩)).2
      = some (applyUpdateSet ⟨some ("99999"), none, some true⟩
          ⟨"success", some ("1"), some ⟨"88234", some ("644")⟩, none⟩)
    ∧ (applyUpdateSet ⟨some ("99999"), none, some true⟩
        ⟨"success", some ("1"), some ⟨"88234", some ("644")⟩, none⟩).drag
      = some ⟨"88234", some ("644")⟩
    ∧ (applyUpdateSet ⟨some ("99999"), none, some true⟩
        ⟨"success", some ("1"), some ⟨"88234", some ("644")⟩, none⟩).is_human_corrected
      = some true
    ∧ (applyUpdateSet ⟨some ("99999"), none, some true⟩
        ⟨"success", some ("1"), some ⟨"88234", some ("644")⟩, none⟩).cope
      = some ("99999") := by
  have h := correction_update_frame ("0123456789abcdef01234567")
    ⟨"success", some ("1"), some ⟨"88234", some ("644")⟩, none⟩
    ⟨some ("99999"), none⟩ (by decide)
  exact ⟨h.1, h.2.1 (Or.inl (by simp)), h.2.2.2.2.2.1 rfl, h.2.2.2.1,
    h.2.2.2.2.2.2.1 ("99999") rfl⟩

end MouldLens
